import Mathlib

/-!
Verification of the framehop DWARF unwinding core.

Shallow embedding of:
  * `src/x86_64/dwarf.rs` — the x86_64 rule translator
    (`translate_into_unwind_rule`, `register_rule_to_cfa_offset`) and the
    per-frame unwind step (`DwarfUnwinding::unwind_frame` for `ArchX86_64`);
  * `src/unwinders/dwarf/unwinder.rs` — the FDE-level entry points
    `unwind_first_with_fde` and `unwind_next_with_fde`.

Machine integers (`u64`) are modelled as `Nat` with explicit wrapping
arithmetic modulo `2 ^ 64`; `i64` offsets are `Int` with Rust's
truncating division written as `Int.div`. Fallible reads and operations
return `Option` / `Except`. The gimli library types (`CfaRule`,
`RegisterRule`, `UnwindTableRow`) are embedded structurally; gimli's FDE
parsing and table-row search are external library calls and appear as
function parameters of the entry points.
-/

/-- The modulus of `u64` arithmetic. -/
def u64Mod : Nat := 2 ^ 64

/-- Wrapping `u64` subtraction `a - b` (Rust release-mode semantics of the
unchecked `-` operator on `u64`). -/
def u64_sub (a b : Nat) : Nat := (a + (u64Mod - b % u64Mod)) % u64Mod

/-- Wrapping addition of a signed 64-bit offset to a `u64` value
(two's-complement semantics). -/
def u64_add_int (a : Nat) (i : Int) : Nat := (((a : Int) + i).emod (u64Mod : Int)).toNat

/-- `u16::try_from` on an `i64` value: succeeds exactly when the value fits
in an unsigned 16-bit integer. -/
def u16_try_from (n : Int) : Option Int :=
  if 0 ≤ n ∧ n < 65536 then some n else none

/-- `i8::try_from` on an `i64` value: succeeds exactly when the value fits
in a signed 8-bit integer. -/
def i8_try_from (n : Int) : Option Int :=
  if -128 ≤ n ∧ n ≤ 127 then some n else none

/-- DWARF register numbers used by the x86_64 code
(gimli's `X86_64::{RSP, RBP, RA}`). -/
def X86_64.RSP : Nat := 7

def X86_64.RBP : Nat := 6

def X86_64.RA : Nat := 16

/-- gimli's `RegisterRule`: how a register of the caller is recovered.
`Offset o` means the value is stored in memory at `CFA + o`;
`ValOffset o` means the value is `CFA + o`; the expression variants stand
for DWARF expression rules (their payload is irrelevant to this code). -/
inductive RegisterRule where
  | Undefined : RegisterRule
  | SameValue : RegisterRule
  | Offset : Int → RegisterRule
  | ValOffset : Int → RegisterRule
  | Register : Nat → RegisterRule
  | Expression : RegisterRule
  | ValExpression : RegisterRule
  deriving DecidableEq, Repr

/-- gimli's `CfaRule`: how the canonical frame address is computed. -/
inductive CfaRule where
  | RegisterAndOffset : Nat → Int → CfaRule
  | Expression : CfaRule
  deriving DecidableEq, Repr

/-- One row of the DWARF unwind table, as consumed by the x86_64 step:
the CFA rule plus the register-rule lookup (gimli's
`UnwindTableRow::cfa` and `UnwindTableRow::register`; registers with no
explicit rule map to `Undefined`). -/
structure UnwindTableRow where
  cfa : CfaRule
  registers : Nat → RegisterRule

/-- The compact x86_64 unwind rule (`UnwindRuleX86_64`). The slot counts
are stored as `Int`; the translator only constructs values that passed
`u16::try_from` / `i8::try_from`. -/
inductive UnwindRuleX86_64 where
  | OffsetSp : Int → UnwindRuleX86_64
  | OffsetSpAndRestoreBp : Int → Int → UnwindRuleX86_64
  | UseFramePointer : UnwindRuleX86_64
  deriving DecidableEq, Repr

/-- `ConversionError`: the not-representable outcomes of the rule
translator. -/
inductive ConversionError where
  | CfaIsExpression : ConversionError
  | CfaIsOffsetFromUnknownRegister : ConversionError
  | ReturnAddressRuleWithUnexpectedOffset : ConversionError
  | ReturnAddressRuleWasWeird : ConversionError
  | SpOffsetDoesNotFit : ConversionError
  | RegisterNotStoredRelativeToCfa : ConversionError
  | FpStorageOffsetDoesNotFit : ConversionError
  | FramePointerRuleDoesNotRestoreBp : ConversionError
  | FramePointerRuleHasStrangeBpOffset : ConversionError
  deriving DecidableEq, Repr

/-- `DwarfUnwinderError`: the per-frame terminal errors of the DWARF
unwinder. -/
inductive DwarfUnwinderError where
  | FdeFromOffsetFailed : DwarfUnwinderError
  | UnwindInfoForAddressFailed : DwarfUnwinderError
  | CouldNotRecoverCfa : DwarfUnwinderError
  | CouldNotRecoverReturnAddress : DwarfUnwinderError
  | DidNotAdvance : DwarfUnwinderError
  | StackPointerMovedBackwards : DwarfUnwinderError
  deriving DecidableEq, Repr

/-- `UnwindRegsX86_64`: the x86_64 register snapshot (`ip`, `sp`, `bp`),
each a `u64`. -/
structure UnwindRegsX86_64 where
  ip : Nat
  sp : Nat
  bp : Nat
  deriving DecidableEq, Repr

/-- `DwarfUnwindRegs::get` for `UnwindRegsX86_64`: `RA ↦ ip`,
`RSP ↦ sp`, `RBP ↦ bp`, any other register is unknown. -/
def UnwindRegsX86_64.get (regs : UnwindRegsX86_64) (register : Nat) : Option Nat :=
  if register = X86_64.RA then some regs.ip
  else if register = X86_64.RSP then some regs.sp
  else if register = X86_64.RBP then some regs.bp
  else none

/-- Modelled from the spec: `FrameAddress` is defined in the crate root,
which is not under src/. Per §3 of the spec it tags an address as either
an instruction-pointer address (the leaf frame) or a return address
(every subsequent frame). -/
inductive FrameAddress where
  | InstructionPointer : Nat → FrameAddress
  | ReturnAddress : Nat → FrameAddress
  deriving DecidableEq, Repr

/-- `FrameAddress::is_return_address`. -/
def FrameAddress.is_return_address : FrameAddress → Bool
  | .InstructionPointer _ => false
  | .ReturnAddress _ => true

/-- `UnwindResult`: either a cacheable compact rule or an
already-resolved (uncacheable) return address. -/
inductive UnwindResult where
  | ExecRule : UnwindRuleX86_64 → UnwindResult
  | Uncacheable : Nat → UnwindResult
  deriving DecidableEq, Repr

/-- `register_rule_to_cfa_offset` (src/x86_64/dwarf.rs): `Undefined` and
`SameValue` mean the register is not restored (`none`); `Offset o` means
it is restored from `CFA + o`; anything else is not representable. -/
def register_rule_to_cfa_offset (rule : RegisterRule) :
    Except ConversionError (Option Int) :=
  match rule with
  | .Undefined => .ok none
  | .SameValue => .ok none
  | .Offset offset => .ok (some offset)
  | _ => .error .RegisterNotStoredRelativeToCfa

/-- The CFA-rule half of `translate_into_unwind_rule`
(src/x86_64/dwarf.rs lines 114–145): runs after the return-address rule
has been accepted. Rust's `?` early returns become explicit error
propagation; `offset / 8` is Rust's truncating `i64` division,
`Int.tdiv`. -/
def translate_cfa_into_unwind_rule (cfa_rule : CfaRule)
    (bp_rule : RegisterRule) :
    Except ConversionError UnwindRuleX86_64 :=
  match cfa_rule with
  | .RegisterAndOffset register offset =>
    if register = X86_64.RSP then
      match u16_try_from (Int.tdiv offset 8) with
      | none => .error .SpOffsetDoesNotFit
      | some sp_offset_by_8 =>
        match register_rule_to_cfa_offset bp_rule with
        | .error e => .error e
        | .ok none => .ok (.OffsetSp sp_offset_by_8)
        | .ok (some bp_cfa_offset) =>
          match i8_try_from (Int.tdiv (offset + bp_cfa_offset) 8) with
          | none => .error .FpStorageOffsetDoesNotFit
          | some bp_storage_offset_from_sp_by_8 =>
            .ok (.OffsetSpAndRestoreBp sp_offset_by_8 bp_storage_offset_from_sp_by_8)
    else if register = X86_64.RBP then
      match register_rule_to_cfa_offset bp_rule with
      | .error e => .error e
      | .ok none => .error .FramePointerRuleDoesNotRestoreBp
      | .ok (some bp_cfa_offset) =>
        if offset = 16 ∧ bp_cfa_offset = -16 then
          .ok .UseFramePointer
        else
          .error .FramePointerRuleHasStrangeBpOffset
    else
      .error .CfaIsOffsetFromUnknownRegister
  | .Expression => .error .CfaIsExpression

/-- `translate_into_unwind_rule` (src/x86_64/dwarf.rs lines 91–146):
compress the CFA / frame-pointer / return-address rules into a compact
`UnwindRuleX86_64`, or report the pattern as not representable. The
return-address rule must be `Undefined` (the normal case: the return
address is at `[CFA-8]`) or explicitly `Offset (-8)`; anything else
goes down the slow path. -/
def translate_into_unwind_rule (cfa_rule : CfaRule)
    (bp_rule ra_rule : RegisterRule) :
    Except ConversionError UnwindRuleX86_64 :=
  match ra_rule with
  | .Undefined =>
    -- This is normal. Return address is [CFA-8].
    translate_cfa_into_unwind_rule cfa_rule bp_rule
  | .Offset offset =>
    if offset = -8 then
      -- Weirdly explicit, but also ok.
      translate_cfa_into_unwind_rule cfa_rule bp_rule
    else
      -- Not ok.
      .error .ReturnAddressRuleWithUnexpectedOffset
  | _ =>
    -- Somebody's being extra. Go down the slow path.
    .error .ReturnAddressRuleWasWeird

/-- Modelled from the spec: `eval_cfa_rule` lives in `crate::dwarf`,
which is not under src/. Per §4.3 step 3 the CFA value is computed
numerically from the current registers; an unknown register is a
failure. Evaluation of a DWARF expression CFA rule is outside what the
spec pins down and is modelled as failing. -/
def eval_cfa_rule (rule : CfaRule) (regs : UnwindRegsX86_64) : Option Nat :=
  match rule with
  | .RegisterAndOffset register offset =>
    (regs.get register).map (fun v => u64_add_int v offset)
  | .Expression => none

/-- Modelled from the spec: `eval_register_rule` lives in `crate::dwarf`,
which is not under src/. Per §4.3 step 3 the value is computed from the
rule against the live register file, reading memory through the
caller's read callback when the rule requires it; an `Undefined` rule
yields no value. Expression rules are outside what the spec pins down
and are modelled as yielding no value. -/
def eval_register_rule (rule : RegisterRule) (cfa : Nat) (val : Nat)
    (regs : UnwindRegsX86_64) (read_mem : Nat → Option Nat) : Option Nat :=
  match rule with
  | .Undefined => none
  | .SameValue => some val
  | .Offset offset => read_mem (u64_add_int cfa offset)
  | .ValOffset offset => some (u64_add_int cfa offset)
  | .Register register => regs.get register
  | .Expression => none
  | .ValExpression => none

/-- The return-address computation of the fallback path
(src/x86_64/dwarf.rs lines 59–64): evaluate the return-address rule;
when it yields no value, read the return address from `CFA − 8` through
the caller's read callback. -/
def fallback_return_address (ra_rule : RegisterRule) (cfa : Nat)
    (regs : UnwindRegsX86_64) (read_mem : Nat → Option Nat) : Option Nat :=
  match eval_register_rule ra_rule cfa regs.ip regs read_mem with
  | some ra => some ra
  | none => read_mem (u64_sub cfa 8)

/-- The fallback (full-evaluation) path of `unwind_frame`
(src/x86_64/dwarf.rs lines 49–77). The `&mut regs` parameter is
modelled by state passing: the second component of the result is the
register file after the call (unchanged whenever an error is
returned). -/
def unwind_frame_fallback (cfa_rule : CfaRule) (bp_rule ra_rule : RegisterRule)
    (regs : UnwindRegsX86_64) (address : FrameAddress)
    (read_mem : Nat → Option Nat) :
    Except DwarfUnwinderError UnwindResult × UnwindRegsX86_64 :=
  match eval_cfa_rule cfa_rule regs with
  | none => (.error .CouldNotRecoverCfa, regs)
  | some cfa =>
    let ip := regs.ip
    let bp := regs.bp
    let sp := regs.sp
    let new_bp := (eval_register_rule bp_rule cfa bp regs read_mem).getD bp
    match fallback_return_address ra_rule cfa regs read_mem with
    | none => (.error .CouldNotRecoverReturnAddress, regs)
    | some return_address =>
      if cfa = sp ∧ return_address = ip then
        (.error .DidNotAdvance, regs)
      else if address.is_return_address ∧ cfa < regs.sp then
        (.error .StackPointerMovedBackwards, regs)
      else
        (.ok (.Uncacheable return_address),
          { ip := return_address, bp := new_bp, sp := cfa })

/-- `DwarfUnwinding::unwind_frame` for `ArchX86_64`
(src/x86_64/dwarf.rs lines 26–78): read the CFA, RBP and RA rules from
the unwind table row; when the rule translator succeeds, return the
compact rule (registers untouched); on translation failure, fall
through to full evaluation. The translation error itself is only
printed, never returned. -/
def unwind_frame (unwind_info : UnwindTableRow) (regs : UnwindRegsX86_64)
    (address : FrameAddress) (read_mem : Nat → Option Nat) :
    Except DwarfUnwinderError UnwindResult × UnwindRegsX86_64 :=
  let cfa_rule := unwind_info.cfa
  let bp_rule := unwind_info.registers X86_64.RBP
  let ra_rule := unwind_info.registers X86_64.RA
  match translate_into_unwind_rule cfa_rule bp_rule ra_rule with
  | .ok unwind_rule => (.ok (.ExecRule unwind_rule), regs)
  | .error _ =>
    -- eprintln!("Unwind rule translation failed: {:?}", err);
    unwind_frame_fallback cfa_rule bp_rule ra_rule regs address read_mem

/-- A parsed frame description entry, as used by the entry points: gimli's
`FDE::unwind_info_for_address` is an external library call and is
embedded as the function `table`, mapping a lookup address to the unwind
table row applicable at that address (`none` when row search or
evaluation fails). -/
structure FDE where
  table : Nat → Option UnwindTableRow

/-- Modelled from the spec: the `DwarfUnwinding::unwind_first` glue for
x86_64 is not under src/; per §3/§4.5 the first (leaf) frame's address
is tagged as an instruction-pointer address and handed to the
architecture's unwind step. -/
def unwind_first (unwind_info : UnwindTableRow) (regs : UnwindRegsX86_64)
    (pc : Nat) (read_mem : Nat → Option Nat) :
    Except DwarfUnwinderError UnwindResult × UnwindRegsX86_64 :=
  unwind_frame unwind_info regs (.InstructionPointer pc) read_mem

/-- Modelled from the spec: the `DwarfUnwinding::unwind_next` glue for
x86_64 is not under src/; per §3/§4.5 every subsequent frame's address
is tagged as a return address and handed to the architecture's unwind
step. -/
def unwind_next (unwind_info : UnwindTableRow) (regs : UnwindRegsX86_64)
    (return_address : Nat) (read_mem : Nat → Option Nat) :
    Except DwarfUnwinderError UnwindResult × UnwindRegsX86_64 :=
  unwind_frame unwind_info regs (.ReturnAddress return_address) read_mem

/-- `unwind_first_with_fde` (src/unwinders/dwarf/unwinder.rs lines
85–120): parse the FDE at `fde_offset` (gimli's
`EhFrame::fde_from_offset`, embedded as the `fde_from_offset`
parameter), look up the unwind table row applicable at `pc` — the
unadjusted instruction pointer — and run the architecture's first-frame
step. -/
def unwind_first_with_fde (fde_from_offset : Nat → Option FDE)
    (regs : UnwindRegsX86_64) (pc : Nat) (fde_offset : Nat)
    (read_mem : Nat → Option Nat) :
    Except DwarfUnwinderError UnwindResult × UnwindRegsX86_64 :=
  match fde_from_offset fde_offset with
  | none => (.error .FdeFromOffsetFailed, regs)
  | some fde =>
    match fde.table pc with
    | none => (.error .UnwindInfoForAddressFailed, regs)
    | some unwind_info => unwind_first unwind_info regs pc read_mem

/-- `unwind_next_with_fde` (src/unwinders/dwarf/unwinder.rs lines
122–159): parse the FDE at `fde_offset`, look up the unwind table row
applicable at `return_address - 1` — an unchecked (wrapping) `u64`
subtraction — and run the architecture's next-frame step with the
unadjusted `return_address`. -/
def unwind_next_with_fde (fde_from_offset : Nat → Option FDE)
    (regs : UnwindRegsX86_64) (return_address : Nat) (fde_offset : Nat)
    (read_mem : Nat → Option Nat) :
    Except DwarfUnwinderError UnwindResult × UnwindRegsX86_64 :=
  match fde_from_offset fde_offset with
  | none => (.error .FdeFromOffsetFailed, regs)
  | some fde =>
    match fde.table (u64_sub return_address 1) with
    | none => (.error .UnwindInfoForAddressFailed, regs)
    | some unwind_info => unwind_next unwind_info regs return_address read_mem

/-- The new CFA computed by a compact rule from the current registers:
`OffsetSp` / `OffsetSpAndRestoreBp` give `sp + 8 * slots`,
`UseFramePointer` gives `bp + 16`. -/
def UnwindRuleX86_64.newCfa (rule : UnwindRuleX86_64)
    (regs : UnwindRegsX86_64) : Nat :=
  match rule with
  | .OffsetSp sp_offset_by_8 => u64_add_int regs.sp (8 * sp_offset_by_8)
  | .OffsetSpAndRestoreBp sp_offset_by_8 _ => u64_add_int regs.sp (8 * sp_offset_by_8)
  | .UseFramePointer => u64_add_int regs.bp 16

/-- The new frame pointer computed by a compact rule: `OffsetSp` leaves
it unchanged; `OffsetSpAndRestoreBp` reads it from the recorded slot
offset from the stack pointer; `UseFramePointer` reads it from
`CFA − 16`. A failed read leaves the frame pointer unchanged, mirroring
the fallback path's `unwrap_or(bp)`. -/
def UnwindRuleX86_64.newBp (rule : UnwindRuleX86_64)
    (regs : UnwindRegsX86_64) (read_mem : Nat → Option Nat) : Nat :=
  match rule with
  | .OffsetSp _ => regs.bp
  | .OffsetSpAndRestoreBp _ bp_storage_offset_from_sp_by_8 =>
    (read_mem (u64_add_int regs.sp (8 * bp_storage_offset_from_sp_by_8))).getD regs.bp
  | .UseFramePointer =>
    (read_mem (u64_sub (u64_add_int regs.bp 16) 16)).getD regs.bp

/-- Modelled from the spec: execution of a compact unwind rule
(`UnwindRuleX86_64::exec`) is not under src/. Per §4.3 steps 4–5 and §3:
compute the new CFA from the rule, read the return address from
`CFA − 8` through the caller's read callback, apply the no-progress and
backward-stack checks (the latter only for return-address frames), then
update the registers: ip := return address, sp := CFA, bp := the
rule's frame-pointer value. -/
def UnwindRuleX86_64.exec (rule : UnwindRuleX86_64) (address : FrameAddress)
    (regs : UnwindRegsX86_64) (read_mem : Nat → Option Nat) :
    Except DwarfUnwinderError UnwindRegsX86_64 :=
  let cfa := rule.newCfa regs
  match read_mem (u64_sub cfa 8) with
  | none => .error .CouldNotRecoverReturnAddress
  | some return_address =>
    if cfa = regs.sp ∧ return_address = regs.ip then
      .error .DidNotAdvance
    else if address.is_return_address ∧ cfa < regs.sp then
      .error .StackPointerMovedBackwards
    else
      .ok { ip := return_address, sp := cfa, bp := rule.newBp regs read_mem }

/-- Equality of `Except` values is decidable when both component types
have decidable equality (used to evaluate the embedded functions on
concrete inputs). -/
instance {e a : Type} [DecidableEq e] [DecidableEq a] : DecidableEq (Except e a) := fun x y =>
  match x, y with
  | .ok u, .ok v =>
    if h : u = v then isTrue (by rw [h]) else isFalse (by simp [h])
  | .ok _, .error _ => isFalse (by simp)
  | .error _, .ok _ => isFalse (by simp)
  | .error u, .error v =>
    if h : u = v then isTrue (by rw [h]) else isFalse (by simp [h])

/-- Helper: the register-rule lookup outcomes of
`register_rule_to_cfa_offset`, by cases on the rule. -/
theorem register_rule_to_cfa_offset_cases (bp_rule : RegisterRule) :
    register_rule_to_cfa_offset bp_rule = .ok none ∨
    (∃ o, bp_rule = .Offset o ∧ register_rule_to_cfa_offset bp_rule = .ok (some o)) ∨
    register_rule_to_cfa_offset bp_rule = .error .RegisterNotStoredRelativeToCfa := by
  cases bp_rule <;> simp [register_rule_to_cfa_offset]

/-- Helper: with an acceptable return-address rule, the translator is
the CFA-rule translation. -/
theorem translate_of_ra_ok (cfa_rule : CfaRule) (bp_rule ra_rule : RegisterRule)
    (h : ra_rule = .Undefined ∨ ra_rule = .Offset (-8)) :
    translate_into_unwind_rule cfa_rule bp_rule ra_rule
      = translate_cfa_into_unwind_rule cfa_rule bp_rule := by
  rcases h with h | h <;> subst h <;> simp [translate_into_unwind_rule]

/-- C4 counterexample: with CFA = RSP + 12 — an offset that does not
divide evenly into 8-byte slots — an unrestored frame pointer and the
default return-address rule, the translator succeeds with the truncated
slot count `12 / 8 = 1` instead of reporting the offset as not
representable. -/
theorem sp_offset_not_multiple_of_8_is_accepted :
    translate_into_unwind_rule (.RegisterAndOffset X86_64.RSP 12) .Undefined .Undefined
      = .ok (.OffsetSp 1) := by decide

/-- C4 (amended): for a CFA rule `RSP + offset` with an acceptable
return-address rule: when the frame-pointer rule leaves the frame
pointer unrestored, the translator produces `OffsetSp (offset / 8)`
(truncating division) provided the quotient fits in a `u16`, and fails
with `SpOffsetDoesNotFit` otherwise; when the frame-pointer rule
restores the frame pointer from `CFA + fp_off`, it additionally records
the slot offset `(offset + fp_off) / 8` provided that quotient fits in
an `i8`, failing with `FpStorageOffsetDoesNotFit` otherwise. Offsets
that do not divide evenly into 8-byte slots are truncated, not
rejected. -/
theorem translate_sp_offset_characterization
    (offset : Int) (bp_rule ra_rule : RegisterRule)
    (hra : ra_rule = .Undefined ∨ ra_rule = .Offset (-8)) :
    (register_rule_to_cfa_offset bp_rule = .ok none →
      translate_into_unwind_rule (.RegisterAndOffset X86_64.RSP offset) bp_rule ra_rule
        = if 0 ≤ Int.tdiv offset 8 ∧ Int.tdiv offset 8 < 65536 then
            .ok (.OffsetSp (Int.tdiv offset 8))
          else
            .error .SpOffsetDoesNotFit)
    ∧ (∀ fp_off, register_rule_to_cfa_offset bp_rule = .ok (some fp_off) →
      translate_into_unwind_rule (.RegisterAndOffset X86_64.RSP offset) bp_rule ra_rule
        = if 0 ≤ Int.tdiv offset 8 ∧ Int.tdiv offset 8 < 65536 then
            (if -128 ≤ Int.tdiv (offset + fp_off) 8 ∧ Int.tdiv (offset + fp_off) 8 ≤ 127 then
              .ok (.OffsetSpAndRestoreBp (Int.tdiv offset 8) (Int.tdiv (offset + fp_off) 8))
            else
              .error .FpStorageOffsetDoesNotFit)
          else
            .error .SpOffsetDoesNotFit) := by
  rw [translate_of_ra_ok _ _ _ hra]
  constructor
  · intro hbp
    by_cases h8 : 0 ≤ Int.tdiv offset 8 ∧ Int.tdiv offset 8 < 65536
    · simp [translate_cfa_into_unwind_rule, u16_try_from, hbp, h8]
    · simp [translate_cfa_into_unwind_rule, u16_try_from, hbp, h8]
  · intro fp_off hbp
    by_cases h8 : 0 ≤ Int.tdiv offset 8 ∧ Int.tdiv offset 8 < 65536
    · by_cases h9 : -128 ≤ Int.tdiv (offset + fp_off) 8 ∧ Int.tdiv (offset + fp_off) 8 ≤ 127
      · simp [translate_cfa_into_unwind_rule, u16_try_from, i8_try_from, hbp, h8, h9]
      · simp [translate_cfa_into_unwind_rule, u16_try_from, i8_try_from, hbp, h8, h9]
    · simp [translate_cfa_into_unwind_rule, u16_try_from, hbp, h8]

/-- C4 witness: concrete instances of both halves of the amended claim:
`RSP + 16` with an unrestored frame pointer gives `OffsetSp 2`, and
`RSP + 16` with the frame pointer restored from `CFA - 24` gives
`OffsetSpAndRestoreBp 2 (-1)`. -/
theorem translate_sp_offset_characterization_witness :
    translate_into_unwind_rule (.RegisterAndOffset X86_64.RSP 16) .Undefined .Undefined
      = .ok (.OffsetSp 2)
    ∧ translate_into_unwind_rule (.RegisterAndOffset X86_64.RSP 16) (.Offset (-24)) .Undefined
      = .ok (.OffsetSpAndRestoreBp 2 (-1)) := by
  constructor
  · have h := (translate_sp_offset_characterization 16 .Undefined .Undefined
      (Or.inl rfl)).1 (by decide)
    rw [h]; decide
  · have h := (translate_sp_offset_characterization 16 (.Offset (-24)) .Undefined
      (Or.inl rfl)).2 (-24) (by decide)
    rw [h]; decide

/-- C5: the rule translator succeeds only when the return-address rule
is `Undefined` (the implicit "stored at CFA − 8" convention) or
explicitly `Offset (-8)`; for every other return-address placement it
returns a not-representable conversion error — one of the two
return-address conversion errors — without producing a compact rule. -/
theorem translator_requires_default_return_address
    (cfa_rule : CfaRule) (bp_rule ra_rule : RegisterRule) :
    (ra_rule ≠ .Undefined → ra_rule ≠ .Offset (-8) →
      (translate_into_unwind_rule cfa_rule bp_rule ra_rule
          = .error .ReturnAddressRuleWithUnexpectedOffset
        ∨ translate_into_unwind_rule cfa_rule bp_rule ra_rule
          = .error .ReturnAddressRuleWasWeird))
    ∧ (∀ r, translate_into_unwind_rule cfa_rule bp_rule ra_rule = .ok r →
        ra_rule = .Undefined ∨ ra_rule = .Offset (-8)) := by
  constructor
  · intro h1 h2
    match ra_rule with
    | .Undefined => exact absurd rfl h1
    | .Offset o =>
      have ho : ¬(o = -8) := fun h => h2 (by rw [h])
      left
      simp [translate_into_unwind_rule, ho]
    | .SameValue | .ValOffset _ | .Register _ | .Expression | .ValExpression =>
      right
      simp [translate_into_unwind_rule]
  · intro r hok
    match ra_rule with
    | .Undefined => exact Or.inl rfl
    | .Offset o =>
      right
      by_cases ho : o = -8
      · rw [ho]
      · simp [translate_into_unwind_rule, ho] at hok
    | .SameValue | .ValOffset _ | .Register _ | .Expression | .ValExpression =>
      simp [translate_into_unwind_rule] at hok

/-- C5 witness: at the concrete return-address rule `SameValue` (neither
`Undefined` nor `Offset (-8)`) the translator fails with a
return-address conversion error, and from a concrete successful
translation the return-address rule is recovered as acceptable. -/
theorem translator_requires_default_return_address_witness :
    (translate_into_unwind_rule (.RegisterAndOffset X86_64.RSP 8) .Undefined .SameValue
        = .error .ReturnAddressRuleWithUnexpectedOffset
      ∨ translate_into_unwind_rule (.RegisterAndOffset X86_64.RSP 8) .Undefined .SameValue
        = .error .ReturnAddressRuleWasWeird)
    ∧ (RegisterRule.Undefined = RegisterRule.Undefined
        ∨ RegisterRule.Undefined = RegisterRule.Offset (-8)) :=
  ⟨(translator_requires_default_return_address
      (.RegisterAndOffset X86_64.RSP 8) .Undefined .SameValue).1
      (by decide) (by decide),
   (translator_requires_default_return_address
      (.RegisterAndOffset X86_64.RSP 8) .Undefined .Undefined).2
      (.OffsetSp 1) (by decide)⟩

/-- C6: for a CFA rule `RBP + offset` with an acceptable return-address
rule, the translator produces a compact rule exactly when `offset = 16`
and the frame-pointer rule restores the frame pointer from `CFA − 16`,
and that compact rule is the frame-pointer-chain rule
`UseFramePointer`; every other combination — including a frame-pointer
rule that does not restore the frame pointer — is reported as not
representable. -/
theorem translate_fp_chain_characterization
    (offset : Int) (bp_rule ra_rule : RegisterRule) (r : UnwindRuleX86_64)
    (hra : ra_rule = .Undefined ∨ ra_rule = .Offset (-8)) :
    translate_into_unwind_rule (.RegisterAndOffset X86_64.RBP offset) bp_rule ra_rule = .ok r
      ↔ (offset = 16 ∧ bp_rule = .Offset (-16) ∧ r = .UseFramePointer) := by
  rw [translate_of_ra_ok _ _ _ hra]
  constructor
  · intro hok
    rcases register_rule_to_cfa_offset_cases bp_rule with hbp | ⟨o, hbp_eq, hbp⟩ | hbp
    · simp [translate_cfa_into_unwind_rule, X86_64.RSP, X86_64.RBP, hbp] at hok
    · by_cases hoff : offset = 16 ∧ o = -16
      · exact ⟨hoff.1, by rw [hbp_eq, hoff.2],
          by simp [translate_cfa_into_unwind_rule, X86_64.RSP, X86_64.RBP, hbp, hoff] at hok
             exact hok.symm⟩
      · simp [translate_cfa_into_unwind_rule, X86_64.RSP, X86_64.RBP, hbp, hoff] at hok
    · simp [translate_cfa_into_unwind_rule, X86_64.RSP, X86_64.RBP, hbp] at hok
  · rintro ⟨h16, hbp, hr⟩
    subst h16; subst hbp; subst hr
    decide

/-- C6 witness: the classic frame-pointer-chain pattern
(CFA = RBP + 16, frame pointer restored from CFA − 16, default
return-address rule) translates to `UseFramePointer`. -/
theorem translate_fp_chain_characterization_witness :
    translate_into_unwind_rule (.RegisterAndOffset X86_64.RBP 16) (.Offset (-16)) .Undefined
      = .ok .UseFramePointer :=
  (translate_fp_chain_characterization 16 (.Offset (-16)) .Undefined .UseFramePointer
    (Or.inl rfl)).mpr ⟨rfl, rfl, rfl⟩

/-- C2: for every frame, on the compact-rule path (rule execution) and
the fallback path alike, if the newly computed CFA equals the current
stack pointer and the newly computed return address equals the current
instruction pointer, the step fails with `DidNotAdvance` instead of
producing a next frame, and the registers are untouched. -/
theorem no_progress_check :
    (∀ (row : UnwindTableRow) (regs : UnwindRegsX86_64) (address : FrameAddress)
        (read_mem : Nat → Option Nat) (e : ConversionError) (cfa ra : Nat),
      translate_into_unwind_rule row.cfa (row.registers X86_64.RBP)
          (row.registers X86_64.RA) = .error e →
      eval_cfa_rule row.cfa regs = some cfa →
      fallback_return_address (row.registers X86_64.RA) cfa regs read_mem = some ra →
      cfa = regs.sp → ra = regs.ip →
      unwind_frame row regs address read_mem = (.error .DidNotAdvance, regs))
    ∧ (∀ (rule : UnwindRuleX86_64) (address : FrameAddress)
        (regs : UnwindRegsX86_64) (read_mem : Nat → Option Nat) (ra : Nat),
      read_mem (u64_sub (rule.newCfa regs) 8) = some ra →
      rule.newCfa regs = regs.sp → ra = regs.ip →
      rule.exec address regs read_mem = .error .DidNotAdvance) := by
  constructor
  · intro row regs address read_mem e cfa ra htr hcfa hra hsp hip
    subst hsp; subst hip
    simp [unwind_frame, htr, unwind_frame_fallback, hcfa, hra]
  · intro rule address regs read_mem ra hmem hsp hip
    subst hip
    rw [hsp] at hmem
    simp [UnwindRuleX86_64.exec, hsp, hmem]

/-- C2 witness: a concrete self-referential frame (CFA rule `RSP + 0`,
return-address rule `Register 0`, memory holding the current
instruction pointer at `CFA − 8`) makes the fallback path fail with
`DidNotAdvance`; the compact rule `OffsetSp 0` on the same registers
and memory fails the same way. -/
theorem no_progress_check_witness :
    unwind_frame
        ⟨.RegisterAndOffset X86_64.RSP 0,
          fun r => if r = X86_64.RA then .Register 0 else .Undefined⟩
        ⟨5, 100, 50⟩ (.ReturnAddress 7)
        (fun a => if a = 92 then some 5 else none)
      = (.error .DidNotAdvance, ⟨5, 100, 50⟩)
    ∧ UnwindRuleX86_64.exec (.OffsetSp 0) (.ReturnAddress 7) ⟨5, 100, 50⟩
        (fun a => if a = 92 then some 5 else none)
      = .error .DidNotAdvance :=
  ⟨no_progress_check.1
      ⟨.RegisterAndOffset X86_64.RSP 0,
        fun r => if r = X86_64.RA then .Register 0 else .Undefined⟩
      ⟨5, 100, 50⟩ (.ReturnAddress 7)
      (fun a => if a = 92 then some 5 else none)
      .ReturnAddressRuleWasWeird 100 5
      (by decide) (by decide) (by decide) (by decide) (by decide),
   no_progress_check.2 (.OffsetSp 0) (.ReturnAddress 7) ⟨5, 100, 50⟩
      (fun a => if a = 92 then some 5 else none) 5
      (by decide) (by decide) (by decide)⟩

/-- C3: for a return-address (non-leaf) frame, on the compact-rule and
fallback paths alike, a newly computed CFA strictly below the current
stack pointer makes the step fail with `StackPointerMovedBackwards`
with the registers untouched; for the leaf
(instruction-pointer) frame the same situation is not an error and the
step succeeds with the computed registers. -/
theorem backward_stack_check :
    (∀ (row : UnwindTableRow) (regs : UnwindRegsX86_64) (x : Nat)
        (read_mem : Nat → Option Nat) (e : ConversionError) (cfa ra : Nat),
      translate_into_unwind_rule row.cfa (row.registers X86_64.RBP)
          (row.registers X86_64.RA) = .error e →
      eval_cfa_rule row.cfa regs = some cfa →
      fallback_return_address (row.registers X86_64.RA) cfa regs read_mem = some ra →
      cfa < regs.sp →
      unwind_frame row regs (.ReturnAddress x) read_mem
        = (.error .StackPointerMovedBackwards, regs))
    ∧ (∀ (row : UnwindTableRow) (regs : UnwindRegsX86_64) (x : Nat)
        (read_mem : Nat → Option Nat) (e : ConversionError) (cfa ra : Nat),
      translate_into_unwind_rule row.cfa (row.registers X86_64.RBP)
          (row.registers X86_64.RA) = .error e →
      eval_cfa_rule row.cfa regs = some cfa →
      fallback_return_address (row.registers X86_64.RA) cfa regs read_mem = some ra →
      cfa < regs.sp →
      unwind_frame row regs (.InstructionPointer x) read_mem
        = (.ok (.Uncacheable ra),
           { ip := ra,
             bp := (eval_register_rule (row.registers X86_64.RBP) cfa regs.bp
                     regs read_mem).getD regs.bp,
             sp := cfa }))
    ∧ (∀ (rule : UnwindRuleX86_64) (regs : UnwindRegsX86_64) (x : Nat)
        (read_mem : Nat → Option Nat) (ra : Nat),
      read_mem (u64_sub (rule.newCfa regs) 8) = some ra →
      rule.newCfa regs < regs.sp →
      rule.exec (.ReturnAddress x) regs read_mem
        = .error .StackPointerMovedBackwards)
    ∧ (∀ (rule : UnwindRuleX86_64) (regs : UnwindRegsX86_64) (x : Nat)
        (read_mem : Nat → Option Nat) (ra : Nat),
      read_mem (u64_sub (rule.newCfa regs) 8) = some ra →
      rule.newCfa regs < regs.sp →
      rule.exec (.InstructionPointer x) regs read_mem
        = .ok { ip := ra, sp := rule.newCfa regs, bp := rule.newBp regs read_mem }) := by
  refine ⟨?_, ?_, ?_, ?_⟩
  · intro row regs x read_mem e cfa ra htr hcfa hra hlt
    have hne : cfa ≠ regs.sp := Nat.ne_of_lt hlt
    simp [unwind_frame, htr, unwind_frame_fallback, hcfa, hra, hne, hlt,
      FrameAddress.is_return_address]
  · intro row regs x read_mem e cfa ra htr hcfa hra hlt
    have hne : cfa ≠ regs.sp := Nat.ne_of_lt hlt
    simp [unwind_frame, htr, unwind_frame_fallback, hcfa, hra, hne,
      FrameAddress.is_return_address]
  · intro rule regs x read_mem ra hmem hlt
    have hne : rule.newCfa regs ≠ regs.sp := Nat.ne_of_lt hlt
    simp [UnwindRuleX86_64.exec, hmem, hne, hlt, FrameAddress.is_return_address]
  · intro rule regs x read_mem ra hmem hlt
    have hne : rule.newCfa regs ≠ regs.sp := Nat.ne_of_lt hlt
    simp [UnwindRuleX86_64.exec, hmem, hne, FrameAddress.is_return_address]

/-- C3 witness: a CFA rule `RSP − 16` (not compactly representable, so
the fallback path runs) produces CFA 84 below the stack pointer 100:
the return-address frame fails with `StackPointerMovedBackwards` while
the leaf frame succeeds; the compact rule `UseFramePointer` with
`bp = 50` produces CFA 66 below the stack pointer: the return-address
frame fails, the leaf frame succeeds. -/
theorem backward_stack_check_witness :
    unwind_frame ⟨.RegisterAndOffset X86_64.RSP (-16), fun _ => .Undefined⟩
        ⟨5, 100, 50⟩ (.ReturnAddress 9)
        (fun a => if a = 76 then some 7 else if a = 58 then some 7 else none)
      = (.error .StackPointerMovedBackwards, ⟨5, 100, 50⟩)
    ∧ unwind_frame ⟨.RegisterAndOffset X86_64.RSP (-16), fun _ => .Undefined⟩
        ⟨5, 100, 50⟩ (.InstructionPointer 9)
        (fun a => if a = 76 then some 7 else if a = 58 then some 7 else none)
      = (.ok (.Uncacheable 7), ⟨7, 84, 50⟩)
    ∧ UnwindRuleX86_64.exec .UseFramePointer (.ReturnAddress 9) ⟨5, 100, 50⟩
        (fun a => if a = 76 then some 7 else if a = 58 then some 7 else none)
      = .error .StackPointerMovedBackwards
    ∧ UnwindRuleX86_64.exec .UseFramePointer (.InstructionPointer 9) ⟨5, 100, 50⟩
        (fun a => if a = 76 then some 7 else if a = 58 then some 7 else none)
      = .ok ⟨7, 66, 50⟩ :=
  ⟨backward_stack_check.1
      ⟨.RegisterAndOffset X86_64.RSP (-16), fun _ => .Undefined⟩ ⟨5, 100, 50⟩ 9
      (fun a => if a = 76 then some 7 else if a = 58 then some 7 else none)
      .SpOffsetDoesNotFit 84 7 (by decide) (by decide) (by decide) (by decide),
   backward_stack_check.2.1
      ⟨.RegisterAndOffset X86_64.RSP (-16), fun _ => .Undefined⟩ ⟨5, 100, 50⟩ 9
      (fun a => if a = 76 then some 7 else if a = 58 then some 7 else none)
      .SpOffsetDoesNotFit 84 7 (by decide) (by decide) (by decide) (by decide),
   backward_stack_check.2.2.1 .UseFramePointer ⟨5, 100, 50⟩ 9
      (fun a => if a = 76 then some 7 else if a = 58 then some 7 else none)
      7 (by decide) (by decide),
   backward_stack_check.2.2.2 .UseFramePointer ⟨5, 100, 50⟩ 9
      (fun a => if a = 76 then some 7 else if a = 58 then some 7 else none)
      7 (by decide) (by decide)⟩

/-- C7: on the fallback path of `unwind_frame`: failure to compute the
CFA numerically from the current registers yields
`CouldNotRecoverCfa`; when the return-address rule cannot be evaluated,
the return address is read from memory at `CFA − 8` through the
caller's read callback — a failed read there yields
`CouldNotRecoverReturnAddress`, and a successful read supplies the
return address of the produced frame. -/
theorem fallback_error_paths :
    (∀ (row : UnwindTableRow) (regs : UnwindRegsX86_64) (address : FrameAddress)
        (read_mem : Nat → Option Nat) (e : ConversionError),
      translate_into_unwind_rule row.cfa (row.registers X86_64.RBP)
          (row.registers X86_64.RA) = .error e →
      eval_cfa_rule row.cfa regs = none →
      unwind_frame row regs address read_mem = (.error .CouldNotRecoverCfa, regs))
    ∧ (∀ (row : UnwindTableRow) (regs : UnwindRegsX86_64) (address : FrameAddress)
        (read_mem : Nat → Option Nat) (e : ConversionError) (cfa : Nat),
      translate_into_unwind_rule row.cfa (row.registers X86_64.RBP)
          (row.registers X86_64.RA) = .error e →
      eval_cfa_rule row.cfa regs = some cfa →
      eval_register_rule (row.registers X86_64.RA) cfa regs.ip regs read_mem = none →
      read_mem (u64_sub cfa 8) = none →
      unwind_frame row regs address read_mem
        = (.error .CouldNotRecoverReturnAddress, regs))
    ∧ (∀ (row : UnwindTableRow) (regs : UnwindRegsX86_64) (x : Nat)
        (read_mem : Nat → Option Nat) (e : ConversionError) (cfa ra : Nat),
      translate_into_unwind_rule row.cfa (row.registers X86_64.RBP)
          (row.registers X86_64.RA) = .error e →
      eval_cfa_rule row.cfa regs = some cfa →
      eval_register_rule (row.registers X86_64.RA) cfa regs.ip regs read_mem = none →
      read_mem (u64_sub cfa 8) = some ra →
      ¬(cfa = regs.sp ∧ ra = regs.ip) →
      unwind_frame row regs (.InstructionPointer x) read_mem
        = (.ok (.Uncacheable ra),
           { ip := ra,
             bp := (eval_register_rule (row.registers X86_64.RBP) cfa regs.bp
                     regs read_mem).getD regs.bp,
             sp := cfa })) := by
  refine ⟨?_, ?_, ?_⟩
  · intro row regs address read_mem e htr hcfa
    simp [unwind_frame, htr, unwind_frame_fallback, hcfa]
  · intro row regs address read_mem e cfa htr hcfa hev hmem
    simp [unwind_frame, htr, unwind_frame_fallback, hcfa,
      fallback_return_address, hev, hmem]
  · intro row regs x read_mem e cfa ra htr hcfa hev hmem hch
    simp [unwind_frame, htr, unwind_frame_fallback, hcfa,
      fallback_return_address, hev, hmem, hch, FrameAddress.is_return_address]

/-- C7 witness: a CFA rule that is a DWARF expression cannot be
computed from the registers and yields `CouldNotRecoverCfa`; a CFA rule
`RSP − 16` with an undefined return-address rule and an always-failing
read callback yields `CouldNotRecoverReturnAddress`; with memory
holding 7 at `CFA − 8 = 76`, the leaf frame unwinds to return
address 7. -/
theorem fallback_error_paths_witness :
    unwind_frame ⟨.Expression, fun _ => .Undefined⟩ ⟨5, 100, 50⟩
        (.ReturnAddress 9) (fun _ => none)
      = (.error .CouldNotRecoverCfa, ⟨5, 100, 50⟩)
    ∧ unwind_frame ⟨.RegisterAndOffset X86_64.RSP (-16), fun _ => .Undefined⟩
        ⟨5, 100, 50⟩ (.ReturnAddress 9) (fun _ => none)
      = (.error .CouldNotRecoverReturnAddress, ⟨5, 100, 50⟩)
    ∧ unwind_frame ⟨.RegisterAndOffset X86_64.RSP (-16), fun _ => .Undefined⟩
        ⟨5, 100, 50⟩ (.InstructionPointer 9)
        (fun a => if a = 76 then some 7 else none)
      = (.ok (.Uncacheable 7), ⟨7, 84, 50⟩) :=
  ⟨fallback_error_paths.1 ⟨.Expression, fun _ => .Undefined⟩ ⟨5, 100, 50⟩
      (.ReturnAddress 9) (fun _ => none) .CfaIsExpression (by decide) (by decide),
   fallback_error_paths.2.1 ⟨.RegisterAndOffset X86_64.RSP (-16), fun _ => .Undefined⟩
      ⟨5, 100, 50⟩ (.ReturnAddress 9) (fun _ => none) .SpOffsetDoesNotFit 84
      (by decide) (by decide) (by decide) (by decide),
   fallback_error_paths.2.2 ⟨.RegisterAndOffset X86_64.RSP (-16), fun _ => .Undefined⟩
      ⟨5, 100, 50⟩ 9 (fun a => if a = 76 then some 7 else none) .SpOffsetDoesNotFit 84 7
      (by decide) (by decide) (by decide) (by decide) (by decide)⟩

/-- C8: a not-representable outcome of the rule translator is never
returned as an error from `unwind_frame`: whenever translation fails —
with any conversion error — the step is exactly the fallback full
evaluation, whose result does not depend on which conversion error
occurred, and every error `unwind_frame` can return is one of the four
genuine evaluation errors. -/
theorem translation_failure_falls_through
    (row : UnwindTableRow) (regs : UnwindRegsX86_64) (address : FrameAddress)
    (read_mem : Nat → Option Nat) (e : ConversionError)
    (htr : translate_into_unwind_rule row.cfa (row.registers X86_64.RBP)
      (row.registers X86_64.RA) = .error e) :
    unwind_frame row regs address read_mem
      = unwind_frame_fallback row.cfa (row.registers X86_64.RBP)
          (row.registers X86_64.RA) regs address read_mem
    ∧ (∀ d regs2, unwind_frame row regs address read_mem = (.error d, regs2) →
        d = .CouldNotRecoverCfa ∨ d = .CouldNotRecoverReturnAddress ∨
        d = .DidNotAdvance ∨ d = .StackPointerMovedBackwards) := by
  have hfall : unwind_frame row regs address read_mem
      = unwind_frame_fallback row.cfa (row.registers X86_64.RBP)
          (row.registers X86_64.RA) regs address read_mem := by
    simp [unwind_frame, htr]
  refine ⟨hfall, ?_⟩
  intro d regs2 hd
  rw [hfall] at hd
  simp only [unwind_frame_fallback] at hd
  repeat' split at hd
  all_goals simp at hd
  all_goals obtain ⟨h1, -⟩ := hd
  all_goals cases h1
  all_goals decide

/-- C8 witness: for a concrete frame whose translation fails with
`CfaIsExpression`, `unwind_frame` equals the fallback evaluation, and
its (genuine) error is `CouldNotRecoverCfa`. -/
theorem translation_failure_falls_through_witness :
    unwind_frame ⟨.Expression, fun _ => .Undefined⟩ ⟨5, 100, 50⟩
        (.ReturnAddress 9) (fun _ => none)
      = unwind_frame_fallback .Expression .Undefined .Undefined ⟨5, 100, 50⟩
          (.ReturnAddress 9) (fun _ => none)
    ∧ (DwarfUnwinderError.CouldNotRecoverCfa = .CouldNotRecoverCfa ∨
        DwarfUnwinderError.CouldNotRecoverCfa = .CouldNotRecoverReturnAddress ∨
        DwarfUnwinderError.CouldNotRecoverCfa = .DidNotAdvance ∨
        DwarfUnwinderError.CouldNotRecoverCfa = .StackPointerMovedBackwards) :=
  ⟨(translation_failure_falls_through ⟨.Expression, fun _ => .Undefined⟩ ⟨5, 100, 50⟩
      (.ReturnAddress 9) (fun _ => none) .CfaIsExpression (by decide)).1,
   (translation_failure_falls_through ⟨.Expression, fun _ => .Undefined⟩ ⟨5, 100, 50⟩
      (.ReturnAddress 9) (fun _ => none) .CfaIsExpression (by decide)).2
      .CouldNotRecoverCfa ⟨5, 100, 50⟩ (by decide)⟩

/-- C9: error atomicity — whenever the x86_64 `unwind_frame` returns an
error (of any kind), the register state it leaves behind is exactly the
one it was called with: the instruction-pointer, stack-pointer and
frame-pointer writes happen only after every check has passed. -/
theorem unwind_frame_error_atomicity
    (row : UnwindTableRow) (regs : UnwindRegsX86_64) (address : FrameAddress)
    (read_mem : Nat → Option Nat) (d : DwarfUnwinderError)
    (regs2 : UnwindRegsX86_64)
    (herr : unwind_frame row regs address read_mem = (.error d, regs2)) :
    regs2 = regs := by
  simp only [unwind_frame] at herr
  split at herr
  · simp at herr
  · simp only [unwind_frame_fallback] at herr
    repeat' split at herr
    all_goals simp at herr
    all_goals exact herr.2.symm

/-- C9 witness: at a concrete erroring input (expression CFA rule,
failing reads) the registers after `unwind_frame` equal the input
registers. -/
theorem unwind_frame_error_atomicity_witness :
    unwind_frame ⟨.Expression, fun _ => .Undefined⟩ ⟨5, 100, 50⟩
        (.ReturnAddress 9) (fun _ => none)
      = (.error .CouldNotRecoverCfa, ⟨5, 100, 50⟩)
    ∧ (⟨5, 100, 50⟩ : UnwindRegsX86_64) = ⟨5, 100, 50⟩ :=
  ⟨by decide,
   unwind_frame_error_atomicity ⟨.Expression, fun _ => .Undefined⟩ ⟨5, 100, 50⟩
    (.ReturnAddress 9) (fun _ => none) .CouldNotRecoverCfa ⟨5, 100, 50⟩ (by decide)⟩

/-- Helper: the wrapping lookup-address computation of the spec's
scenario: `0x1010 - 1 = 0x100F`. -/
theorem u64_sub_pc_one : u64_sub 0x1010 1 = 0x100F := by decide

/-- Helper: the wrapping lookup-address computation for a zero return
address: `0 - 1` wraps to `2 ^ 64 - 1`. -/
theorem u64_sub_zero_one : u64_sub 0 1 = 2 ^ 64 - 1 := by decide

/-- C1: the unwind table row used to compute the caller's registers is,
for a return-address frame, the row applicable at `return_address − 1`,
and, for the leaf frame, the row applicable at the instruction pointer
itself. In the spec's scenario — a function covering `[0x1000, 0x1010)`
followed by one covering `[0x1010, 0x1020)` and a return address of
exactly `0x1010` — the adjusted lookup selects the callee's row `rowA`,
whereas the unadjusted return address would select the next function's
row `rowB`. -/
theorem lookup_address_adjustment :
    (∀ (tbl : Nat → Option UnwindTableRow) (regs : UnwindRegsX86_64)
        (return_address fde_offset : Nat) (read_mem : Nat → Option Nat),
      unwind_next_with_fde (fun _ => some ⟨tbl⟩) regs return_address fde_offset read_mem
        = match tbl (u64_sub return_address 1) with
          | none => (.error .UnwindInfoForAddressFailed, regs)
          | some row => unwind_frame row regs (.ReturnAddress return_address) read_mem)
    ∧ (∀ (tbl : Nat → Option UnwindTableRow) (regs : UnwindRegsX86_64)
        (pc fde_offset : Nat) (read_mem : Nat → Option Nat),
      unwind_first_with_fde (fun _ => some ⟨tbl⟩) regs pc fde_offset read_mem
        = match tbl pc with
          | none => (.error .UnwindInfoForAddressFailed, regs)
          | some row => unwind_frame row regs (.InstructionPointer pc) read_mem)
    ∧ (∀ (rowA rowB : UnwindTableRow) (regs : UnwindRegsX86_64)
        (fde_offset : Nat) (read_mem : Nat → Option Nat),
      unwind_next_with_fde
          (fun _ => some ⟨fun a =>
            if 0x1000 ≤ a ∧ a < 0x1010 then some rowA
            else if 0x1010 ≤ a ∧ a < 0x1020 then some rowB else none⟩)
          regs 0x1010 fde_offset read_mem
        = unwind_frame rowA regs (.ReturnAddress 0x1010) read_mem
      ∧ (if (0x1000 : Nat) ≤ 0x1010 ∧ (0x1010 : Nat) < 0x1010 then some rowA
         else if (0x1010 : Nat) ≤ 0x1010 ∧ (0x1010 : Nat) < 0x1020 then some rowB
         else none) = some rowB) := by
  refine ⟨?_, ?_, ?_⟩
  · intro tbl regs return_address fde_offset read_mem
    simp only [unwind_next_with_fde, unwind_next]
  · intro tbl regs pc fde_offset read_mem
    simp only [unwind_first_with_fde, unwind_first]
  · intro rowA rowB regs fde_offset read_mem
    constructor
    · simp only [unwind_next_with_fde, unwind_next, u64_sub_pc_one]
      norm_num
    · norm_num

/-- C10: a return address of 0 is not guarded in `unwind_next_with_fde`:
the table-row lookup address is computed with the wrapping (unchecked)
`u64` subtraction `return_address − 1`, so for `return_address = 0` the
lookup happens at `2 ^ 64 − 1` and the unwinder proceeds with whatever
row that lookup yields, rather than returning a per-frame error for the
zero return address. -/
theorem zero_return_address_lookup_wraps :
    u64_sub 0 1 = 2 ^ 64 - 1
    ∧ (∀ (row : UnwindTableRow) (regs : UnwindRegsX86_64)
        (read_mem : Nat → Option Nat),
      unwind_next_with_fde
          (fun _ => some ⟨fun a => if a = 2 ^ 64 - 1 then some row else none⟩)
          regs 0 0 read_mem
        = unwind_frame row regs (.ReturnAddress 0) read_mem) := by
  refine ⟨u64_sub_zero_one, fun row regs read_mem => ?_⟩
  simp only [unwind_next_with_fde, unwind_next, u64_sub_zero_one]
  simp
